import Mathlib

/-!
Verification of the wave-path animation engine.

The repository ships the engine in two files: `src/unnamed/part_000` (a
gsap-timeline driver with diff-skip and edge snapping) and `src/src/index.ts`,
whose second document is the overflow-safe-scaling variant driven by
requestAnimationFrame.  JavaScript numbers are modelled as real numbers
(rationals where the code only does field arithmetic and rounding), strings by
Lean `String`s built the way the code builds them, and the mutable class state
by an explicit state record with pure transition functions.
-/

set_option maxHeartbeats 1000000

noncomputable section

/-- `clamp(n, min, max) = Math.min(max, Math.max(min, n))` shared by both files. -/
def clamp (n lo hi : ℝ) : ℝ := min hi (max lo n)

/-- `lerp(a, b, t) = a + (b - a) * t` shared by both files. -/
def lerp (a b t : ℝ) : ℝ := a + (b - a) * t

/-- Two-decimal digit pair used when printing a value `c/100`: JavaScript
`String(v)` prints e.g. `8.05`, so a remainder below ten is zero padded. -/
def pad2 (r : ℤ) : String := if r < 10 then "0" ++ toString r else toString r

/-- The decimal string JavaScript `String(v)` produces for `v = c/100` with
`c` a nonnegative integer: integer values print with no fractional part,
multiples of ten with one digit, the rest with two digits. -/
def decStr2 (c : ℤ) : String :=
  if c % 100 = 0 then toString (c / 100)
  else if c % 10 = 0 then toString (c / 100) ++ "." ++ toString ((c / 10) % 10)
  else toString (c / 100) ++ "." ++ pad2 (c % 100)

/-- The decimal string JavaScript `String(v)` produces for `v = c/10` with
`c` a nonnegative integer: integer values print with no fractional part. -/
def decStr1 (c : ℤ) : String :=
  if c % 10 = 0 then toString (c / 10)
  else toString (c / 10) ++ "." ++ toString (c % 10)

namespace Part000

/-- `WavePath.SKIP_DELTA_P` from `src/unnamed/part_000`. -/
def SKIP_DELTA_P : ℝ := 0.0015

/-- `WavePath.EDGE_EPS_P` from `src/unnamed/part_000`. -/
def EDGE_EPS_P : ℝ := 0.0005

/-- `WavePath.ENV_POWER` from `src/unnamed/part_000`. -/
def ENV_POWER : ℝ := 0.5

/-- `WavePath.RIPPLE_FREQ` from `src/unnamed/part_000`. -/
def RIPPLE_FREQ : ℝ := 2

/-- `WavePath.RIPPLE_GAIN` from `src/unnamed/part_000`. -/
def RIPPLE_GAIN : ℝ := 0.5

/-- `clamp01(n) = n < 0 ? 0 : n > 1 ? 1 : n` from `src/unnamed/part_000`. -/
def clamp01 (n : ℝ) : ℝ := if n < 0 then 0 else if 1 < n then 1 else n

/-- Normalized position `tArr[i]` computed by `precomputePointParams`:
`t = n === 1 ? 0 : i / (n - 1)`. -/
def tVal (n i : ℕ) : ℝ := if n = 1 then 0 else (i : ℝ) / ((n : ℝ) - 1)

/-- Envelope `envArr[i]` computed by `precomputePointParams`:
`(1 - Math.abs(2 * t - 1)) ** ENV_POWER`. -/
def envVal (n i : ℕ) : ℝ := (1 - |2 * tVal n i - 1|) ^ ENV_POWER

/-- Entry `baseSinEnvArr[i]` written by `rollNewSharedWaveProfile` for phase
`phase`: `Math.sin(tArr[i] * Math.PI * FREQ + phase) * envArr[i]`. -/
def profileOf (n : ℕ) (phase : ℝ) (i : ℕ) : ℝ :=
  Real.sin (tVal n i * Real.pi * RIPPLE_FREQ + phase) * envVal n i

/-- Pointwise value written into `out[i]` by `fillWaveYAtProgress(out, p)`:
edge-snapped progress, linear lift from 100 to 0, ripple scaled by
`amplitude * RIPPLE_GAIN * sin(pi * pp)`, clamped to `[0, 100]`. -/
def fillWaveYAtProgress (amplitude : ℝ) (base : ℕ → ℝ) (p : ℝ) (i : ℕ) : ℝ :=
  let pp0 := clamp01 p
  let pp := if pp0 < EDGE_EPS_P then 0 else if 1 - EDGE_EPS_P < pp0 then 1 else pp0
  let lift := lerp 100 0 pp
  let waveK := Real.sin (Real.pi * pp)
  let rippleFactor := amplitude * RIPPLE_GAIN * waveK
  clamp (lift + base i * rippleFactor) 0 100

/-- `segCount = Math.max(1, numberPoints - 1)` from `precomputeX`. -/
def segCountOf (n : ℕ) : ℕ := max 1 (n - 1)

/-- Segment step `100 / segCount` from `precomputeX`, exact in `ℚ`. -/
def stepQ (n : ℕ) : ℚ := 100 / (segCountOf n : ℚ)

/-- Anchor x position `pVal = (j + 1) * step` from `precomputeX`. -/
def pValQ (n j : ℕ) : ℚ := ((j : ℚ) + 1) * stepQ n

/-- Control x position `cpVal = pVal - step / 2` from `precomputeX`. -/
def cpValQ (n j : ℕ) : ℚ := pValQ n j - stepQ n / 2

/-- Numeric value underlying `WavePath.fmt` in `src/unnamed/part_000`:
`Math.round(n * 100) / 100` (two decimal places). -/
def fmtVal (n : ℚ) : ℚ := (round (n * 100) : ℚ) / 100

/-- `WavePath.fmt` from `src/unnamed/part_000`: round to two decimal places,
then print integers without a fractional part. -/
def fmt (n : ℚ) : String := decStr2 (round (n * 100))

/-- Anchor x string `pStr[j]` from `precomputeX`. -/
def pStrOf (n j : ℕ) : String := fmt (pValQ n j)

/-- Control x string `cpStr[j]` from `precomputeX`. -/
def cpStrOf (n j : ℕ) : String := fmt (cpValQ n j)

/-- `WavePath.fmtY` from `src/unnamed/part_000`: round to one decimal place,
print integers without a fractional part. -/
def fmtY (y : ℝ) : String := decStr1 (round (y * 10))

/-- `buildDCubic(y, opened)` from `src/unnamed/part_000`: move to the first
height, one explicit cubic, smooth continuations, then the closing edge
`V 100|0 H 0`; tokens are joined with single spaces. -/
def buildDCubic (n : ℕ) (y : ℕ → ℝ) (opened : Bool) : String :=
  let pts := fun j => fmtY (y j)
  let head := ["M", "0", pts 0, "C", cpStrOf n 0, pts 0, cpStrOf n 0, pts 1,
    pStrOf n 0, pts 1]
  let mid := (List.range (segCountOf n - 1)).map
    (fun jm => ["S", cpStrOf n (jm + 1), pts (jm + 2), pStrOf n (jm + 1), pts (jm + 2)])
  let tail := ["V", if opened then "100" else "0", "H", "0"]
  String.intercalate " " (head ++ mid.flatten ++ tail)

/-- Mutable state of the `WavePath` class in `src/unnamed/part_000`.  The
readonly configuration fields are carried alongside the mutable ones; arrays
are modelled as functions (entries outside the allocated range are never read
by the modelled code paths); `tl` carries the gsap timeline as an optional
pair of its total duration and its active flag; `dom` is the `d` attribute
currently set on each path element, while `prevD` is the class's own cache of
the last string it emitted. -/
structure WPState where
  svg : Bool
  pathCount : ℕ
  numberPoints : ℕ
  amplitude : ℝ
  delayPaths : ℝ
  duration : ℝ
  opened : Bool
  tl : Option (ℝ × Bool)
  phase : ℝ
  lastLocalP : ℕ → ℝ
  prevD : ℕ → String
  yWork : ℕ → ℕ → ℝ
  baseSinEnv : ℕ → ℝ
  dom : ℕ → String

/-- The state produced by the constructor (before `init`): no container
resolved, zero paths, timeline absent, `sharedPhase = 0`, all caches empty,
`baseSinEnvArr` zero-initialized by `precomputePointParams`.  The `d`
attributes currently present on the (not yet queried) path elements are a
parameter. -/
def mkState (numberPoints : ℕ) (amplitude delayPaths duration : ℝ)
    (opened : Bool) (dom : ℕ → String) : WPState :=
  { svg := false, pathCount := 0, numberPoints := numberPoints
    amplitude := amplitude, delayPaths := delayPaths, duration := duration
    opened := opened, tl := none, phase := 0
    lastLocalP := fun _ => 0, prevD := fun _ => ""
    yWork := fun _ _ => 0, baseSinEnv := fun _ => 0, dom := dom }

/-- `isAnimating()`: `Boolean(this.tl?.isActive())`. -/
def isAnimating (s : WPState) : Bool :=
  match s.tl with
  | none => false
  | some t => t.2

/-- `killTimeline()`: clears the completion callback, kills the timeline and
drops the reference; a no-op when no timeline exists. -/
def killTimeline (s : WPState) : WPState :=
  match s.tl with
  | none => s
  | some _ => { s with tl := none }

/-- `stopIfActive()`: `if (this.tl?.isActive()) this.killTimeline()`. -/
def stopIfActive (s : WPState) : WPState :=
  if isAnimating s then killTimeline s else s

/-- `resetDomRefs()`: drop the container and path references and the emit
cache.  The `d` attributes on the elements themselves are untouched. -/
def resetDomRefs (s : WPState) : WPState :=
  { s with svg := false, pathCount := 0, prevD := fun _ => "" }

/-- `resetCaches()`: drop the height buffers and skip caches. -/
def resetCaches (s : WPState) : WPState :=
  { s with yWork := fun _ _ => 0, lastLocalP := fun _ => 0 }

/-- `destroy()`: kill the timeline, drop DOM references, drop caches. -/
def destroy (s : WPState) : WPState :=
  resetCaches (resetDomRefs (killTimeline s))

/-- `allocateCaches()`: fresh zeroed height buffers, every layer's
`lastLocalP` set to `-1`, and the emit cache seeded from the elements'
current `d` attribute (`?? ''`). -/
def allocateCaches (s : WPState) : WPState :=
  { s with yWork := fun _ _ => 0
           lastLocalP := fun i => if i < s.pathCount then -1 else s.lastLocalP i
           prevD := fun i => if i < s.pathCount then s.dom i else "" }

/-- `setPathD(i, d)`: skip when the cached string is identical, otherwise
write the attribute and update the cache. -/
def setPathD (s : WPState) (i : ℕ) (d : String) : WPState :=
  if s.prevD i = d then s
  else { s with dom := Function.update s.dom i d
                prevD := Function.update s.prevD i d }

/-- `init()`: resolve the container and the path elements; on failure fall
back to the inert zero-layer state; on success allocate caches and write the
flat stable shape to every layer.  `found` tells whether the container
resolved and `k` is the number of path elements found. -/
def initRun (found : Bool) (k : ℕ) (s : WPState) : WPState :=
  if ¬found then killTimeline (resetDomRefs { s with svg := false })
  else
    let s1 := killTimeline { s with svg := true, pathCount := k }
    if k = 0 then resetDomRefs s1
    else
      let s2 := allocateCaches s1
      let stableD := buildDCubic s2.numberPoints (fun _ => 0) s2.opened
      (List.range s2.pathCount).foldl (fun a i => setPathD a i stableD) s2

/-- `total = duration + delayPaths * (pathCount - 1)` from `playProgress`. -/
def totalTime (s : WPState) : ℝ :=
  s.duration + s.delayPaths * ((s.pathCount : ℝ) - 1)

/-- `tNow = clamp01(driver.p) * total` from `render`. -/
def tNowAt (s : WPState) (g : ℝ) : ℝ := clamp01 g * totalTime s

/-- `layerIndex = opened ? i : pathCount - i - 1` from `render`. -/
def layerIndexVal (s : WPState) (opened : Bool) (i : ℕ) : ℝ :=
  if opened then (i : ℝ) else (s.pathCount : ℝ) - (i : ℝ) - 1

/-- `layerDelay = delayPaths * layerIndex` from `render`. -/
def layerDelayAt (s : WPState) (opened : Bool) (i : ℕ) : ℝ :=
  s.delayPaths * layerIndexVal s opened i

/-- `localP = clamp01((tNow - layerDelay) / duration)` from `render`. -/
def localProgressAt (s : WPState) (opened : Bool) (g : ℝ) (i : ℕ) : ℝ :=
  clamp01 ((tNowAt s g - layerDelayAt s opened i) / s.duration)

/-- One iteration of the per-layer loop inside `render`: skip when the layer
has a recorded progress (`prevP >= 0`) within `SKIP_DELTA_P` of the new one;
otherwise record the new progress, fill the height buffer, build the curve
string and hand it to `setPathD`. -/
def renderLayer (opened : Bool) (g : ℝ) (s : WPState) (i : ℕ) : WPState :=
  if 0 ≤ s.lastLocalP i ∧ |localProgressAt s opened g i - s.lastLocalP i| < SKIP_DELTA_P
  then s
  else
    setPathD
      { s with
        lastLocalP := Function.update s.lastLocalP i (localProgressAt s opened g i)
        yWork := Function.update s.yWork i
          (fun j => fillWaveYAtProgress s.amplitude s.baseSinEnv
            (localProgressAt s opened g i) j) }
      i
      (buildDCubic s.numberPoints
        (fun j => fillWaveYAtProgress s.amplitude s.baseSinEnv
          (localProgressAt s opened g i) j)
        opened)

/-- The whole `render` callback at global progress `g`: the per-layer loop
over `0 <= i < pathCount`. -/
def renderAll (opened : Bool) (g : ℝ) (s : WPState) : WPState :=
  (List.range s.pathCount).foldl (renderLayer opened g) s

/-- `rollNewSharedWaveProfile()`: draw a phase and overwrite
`baseSinEnvArr`. -/
def rollProfile (phase : ℝ) (s : WPState) : WPState :=
  { s with phase := phase, baseSinEnv := profileOf s.numberPoints phase }

/-- The synchronous prefix of `playProgress` before the first `render()`
call: kill any previous timeline, roll a fresh profile, reset every layer's
skip cache to `-1`, and create the (paused) timeline for the run's total
duration. -/
def runSetup (phase : ℝ) (s : WPState) : WPState :=
  let s2 := rollProfile phase (killTimeline s)
  let s3 := { s2 with
    lastLocalP := fun i => if i < s2.pathCount then -1 else s2.lastLocalP i }
  { s3 with tl := some (totalTime s3, true) }

/-- `playProgress(opened)` up to and including its synchronous first
`render()` call at `driver.p = 0`: a no-op when no container or no layers. -/
def startRun (opened : Bool) (phase : ℝ) (s : WPState) : WPState :=
  if ¬s.svg ∨ s.pathCount = 0 then s else renderAll opened 0 (runSetup phase s)

/-- `open()`: rejected while animating, otherwise set `_isOpened = true` and
start an opening run. -/
def openRun (phase : ℝ) (s : WPState) : WPState :=
  if isAnimating s then s else startRun true phase { s with opened := true }

/-- `close()`: rejected while animating, otherwise set `_isOpened = false`
and start a closing run. -/
def closeRun (phase : ℝ) (s : WPState) : WPState :=
  if isAnimating s then s else startRun false phase { s with opened := false }

/-- `toggle()`: rejected while animating, otherwise flip `_isOpened` and
start a run toward it. -/
def toggleRun (phase : ℝ) (s : WPState) : WPState :=
  if isAnimating s then s
  else startRun (!s.opened) phase { s with opened := !s.opened }

/-- The timeline's `onComplete` callback: render the flat stable shape to
every layer; the timeline is no longer active afterwards. -/
def finishRun (opened : Bool) (s : WPState) : WPState :=
  let stableD := buildDCubic s.numberPoints (fun _ => 0) opened
  { (List.range s.pathCount).foldl (fun a i => setPathD a i stableD) s with
    tl := s.tl.map (fun t => (t.1, false)) }

/-- `totalDurationMs()` from `src/unnamed/part_000`:
`this.tl ? Math.round(this.tl.totalDuration() * 1000) : 0`. -/
def totalDurationMs (s : WPState) : ℤ :=
  match s.tl with
  | none => 0
  | some t => round (t.1 * 1000)

/-- Proof helper: `t` agrees with `s` on every configuration field and on
everything layer `i` owns; render steps of other layers preserve this. -/
def SameAt (i : ℕ) (t s : WPState) : Prop :=
  t.lastLocalP i = s.lastLocalP i ∧ t.prevD i = s.prevD i ∧
  t.dom i = s.dom i ∧ t.yWork i = s.yWork i ∧
  t.svg = s.svg ∧ t.pathCount = s.pathCount ∧
  t.numberPoints = s.numberPoints ∧ t.amplitude = s.amplitude ∧
  t.delayPaths = s.delayPaths ∧ t.duration = s.duration ∧
  t.opened = s.opened ∧ t.tl = s.tl ∧ t.phase = s.phase ∧
  t.baseSinEnv = s.baseSinEnv

/-- What it means for an inert (zero-layer) instance to treat the public API
as no-ops: no `d` attribute is ever written, no timeline is created,
`stopIfActive` does nothing, `totalDurationMs` returns 0 — while the
open/close/toggle wrappers still record their target `isOpened` flag. -/
def InertNoOp (t : WPState) : Prop :=
  ∀ phase : ℝ,
    (openRun phase t).dom = t.dom ∧ (openRun phase t).tl = none ∧
    (openRun phase t).opened = true ∧
    (closeRun phase t).dom = t.dom ∧ (closeRun phase t).opened = false ∧
    (toggleRun phase t).dom = t.dom ∧ (toggleRun phase t).opened = !t.opened ∧
    stopIfActive t = t ∧ totalDurationMs t = 0 ∧ (destroy t).dom = t.dom

end Part000

namespace IndexTs

/-- `WavePath.ENV_POWER` from the overflow-safe variant in `src/src/index.ts`. -/
def ENV_POWER : ℝ := 0.5

/-- `WavePath.RIPPLE_FREQ` from the overflow-safe variant. -/
def RIPPLE_FREQ : ℝ := 2

/-- `WavePath.RIPPLE_GAIN` from the overflow-safe variant. -/
def RIPPLE_GAIN : ℝ := 0.5

/-- `WavePath.LIFT_EASE_POW` from the overflow-safe variant. -/
def LIFT_EASE_POW : ℝ := 1.6

/-- `WavePath.BELL_SHAPE` from the overflow-safe variant. -/
def BELL_SHAPE : ℝ := 0.85

/-- `WavePath.RIPPLE_SHIFT` from the overflow-safe variant. -/
def RIPPLE_SHIFT : ℝ := 0.0

/-- `clamp01(n) = n <= 0 ? 0 : n >= 1 ? 1 : n` from the overflow-safe variant. -/
def clamp01 (n : ℝ) : ℝ := if n ≤ 0 then 0 else if 1 ≤ n then 1 else n

/-- `easeInOutPow(t, k)` from the overflow-safe variant. -/
def easeInOutPow (t k : ℝ) : ℝ :=
  let x := clamp01 t
  if x < 0.5 then 0.5 * (2 * x) ^ k else 1 - 0.5 * (2 * (1 - x)) ^ k

/-- `easeInOutCos(t)` from the overflow-safe variant. -/
def easeInOutCos (t : ℝ) : ℝ :=
  let x := clamp01 t
  0.5 - 0.5 * Real.cos (Real.pi * x)

/-- `bellCurve(t, shape)` from the overflow-safe variant. -/
def bellCurve (t shape : ℝ) : ℝ :=
  let x := clamp01 t
  let b := Real.sin (Real.pi * x)
  if shape = 1 then b else b ^ shape

/-- `WavePath.motionProfile(p)` from the overflow-safe variant, returning the
pair `(pos, bell)`. -/
def motionProfile (p : ℝ) : ℝ × ℝ :=
  let t := clamp01 p
  (easeInOutPow t LIFT_EASE_POW,
    bellCurve (easeInOutCos (clamp01 (t + RIPPLE_SHIFT))) BELL_SHAPE)

/-- The `limit` accumulator loop of `fillWaveAtProgress`: `none` stands for the
initial `Infinity`; entries equal to zero are skipped, positive entries
contribute `maxUp / b`, negative ones `maxDown / -b`, and the running minimum
is kept. -/
def limitFold (maxUp maxDown : ℝ) (base : List ℝ) : Option ℝ :=
  base.foldl
    (fun acc b =>
      if b = 0 then acc
      else
        let localLimit := if b > 0 then maxUp / b else maxDown / (-b)
        match acc with
        | none => some localLimit
        | some l => if localLimit < l then some localLimit else some l)
    none

/-- `fillWaveAtProgress(out, p)` from the overflow-safe variant: eased lift,
bell-shaped ripple gain, the overflow-safe rescaling of the ripple factor with
a 2% safety margin, and a final clamp of each entry to `[0, 100]`. -/
def fillWaveAtProgress (amplitude : ℝ) (base : List ℝ) (p : ℝ) : List ℝ :=
  let pp := if p ≤ 0 then 0 else if p ≥ 1 then 1 else p
  let mp := motionProfile pp
  let lift := lerp 100 0 mp.1
  let rippleFactor0 := amplitude * RIPPLE_GAIN * mp.2
  let maxUp := 100 - lift
  let maxDown := lift - 0
  let rippleFactor :=
    match limitFold maxUp maxDown base with
    | none => rippleFactor0
    | some l => min rippleFactor0 (max 0 (l * 0.98))
  base.map (fun b => clamp (lift + b * rippleFactor) 0 100)

/-- Numeric value underlying `WavePath.fmt` in the overflow-safe variant:
`Math.round(n * 10) / 10` (one decimal place). -/
def fmtVal (n : ℚ) : ℚ := (round (n * 10) : ℚ) / 10

/-- `WavePath.fmt` from the overflow-safe variant: round to one decimal place,
print integers without a fractional part. -/
def fmt (n : ℚ) : String := decStr1 (round (n * 10))

/-- `totalDurationMs()` from the overflow-safe variant:
`Math.round((durationSec + pathDelay * (pathCount - 1)) * 1000)`, where
`pathCount` is the layer count found by `init` (0 before initialization). -/
def totalDurationMs (durationSec pathDelay : ℚ) (pathCount : ℕ) : ℤ :=
  round ((durationSec + pathDelay * ((pathCount : ℚ) - 1)) * 1000)

/-- Layer index used by `renderAt` in the overflow-safe variant:
`opened ? i : pathCount - i - 1` evaluated with JavaScript numbers. -/
def layerIndexVal (opened : Bool) (pathCount i : ℕ) : ℝ :=
  if opened then (i : ℝ) else (pathCount : ℝ) - (i : ℝ) - 1

/-- Local progress computed by `renderAt` for layer `i` at global progress
`g`: `clamp01((clamp01(g) * total - pathDelay * layerIndex) / durationSec)`. -/
def localProgressAt (durationSec pathDelay : ℝ) (opened : Bool) (pathCount : ℕ)
    (g : ℝ) (i : ℕ) : ℝ :=
  clamp01 ((clamp01 g * (durationSec + pathDelay * ((pathCount : ℝ) - 1)) -
    pathDelay * layerIndexVal opened pathCount i) / durationSec)

end IndexTs

namespace SpecModel

/-- Spec wording (§4.5): `layerDelay = delay · (opened ? i : layerCount−1−i)`. -/
def layerDelay (delay : ℝ) (opened : Bool) (layerCount i : ℕ) : ℝ :=
  delay * (if opened then (i : ℝ) else (layerCount : ℝ) - 1 - (i : ℝ))

/-- Spec wording (§4.5):
`localProgress = clamp((globalTime − layerDelay) / duration, 0, 1)`. -/
def localProgress (duration delay : ℝ) (opened : Bool) (layerCount : ℕ)
    (globalTime : ℝ) (i : ℕ) : ℝ :=
  min 1 (max 0 ((globalTime - layerDelay delay opened layerCount i) / duration))

end SpecModel

end


/-! ## Basic lemmas about the numeric helpers -/

lemma clamp_bounds (x : ℝ) : 0 ≤ clamp x 0 100 ∧ clamp x 0 100 ≤ 100 := by
  unfold clamp
  exact ⟨le_min (by norm_num) (le_max_left 0 x), min_le_left _ _⟩

lemma Part000.clamp01_as_minmax (x : ℝ) : Part000.clamp01 x = min 1 (max 0 x) := by
  unfold Part000.clamp01
  split_ifs with h1 h2
  · rw [max_eq_left h1.le, min_eq_right (by norm_num)]
  · rw [max_eq_right (by linarith), min_eq_left (by linarith)]
  · rw [max_eq_right (by linarith), min_eq_right (by linarith)]

lemma IndexTs.clamp01_to_minmax (x : ℝ) : IndexTs.clamp01 x = min 1 (max 0 x) := by
  unfold IndexTs.clamp01
  split_ifs with h1 h2
  · rw [max_eq_left h1, min_eq_right (by norm_num)]
  · rw [max_eq_right (by linarith), min_eq_left (by linarith)]
  · rw [max_eq_right (by linarith), min_eq_right (by linarith)]

lemma getD_map_clamp (f : ℝ → ℝ) (l : List ℝ) (i : ℕ)
    (hf : ∀ b, 0 ≤ f b ∧ f b ≤ 100) :
    0 ≤ (l.map f).getD i 0 ∧ (l.map f).getD i 0 ≤ 100 := by
  by_cases hi : i < (l.map f).length
  · rw [List.getD_eq_getElem _ _ hi]
    rw [List.getElem_map]
    exact hf _
  · rw [List.getD_eq_default _ _ (le_of_not_lt hi)]
    norm_num

/-! ## C1 -/

/-- C1: for every progress value, wave profile and amplitude, every entry of
the height array produced by `fillWaveYAtProgress` (part_000) and by
`fillWaveAtProgress` (overflow-safe variant) lies in `[0, 100]`; the
quantification over `amp` and `base` in particular covers amplitude 100 with
profile entries at the extremes. -/
theorem claim1_heights_in_range (amp p : ℝ) (bf : ℕ → ℝ) (base : List ℝ) (i : ℕ) :
    (0 ≤ Part000.fillWaveYAtProgress amp bf p i ∧
      Part000.fillWaveYAtProgress amp bf p i ≤ 100) ∧
    (0 ≤ (IndexTs.fillWaveAtProgress amp base p).getD i 0 ∧
      (IndexTs.fillWaveAtProgress amp base p).getD i 0 ≤ 100) := by
  constructor
  · exact clamp_bounds _
  · exact getD_map_clamp _ base i (fun b => clamp_bounds _)

/-! ## C2 -/

lemma IndexTs.motionProfile_zero : IndexTs.motionProfile 0 = (0, 0) := by
  unfold IndexTs.motionProfile IndexTs.easeInOutPow IndexTs.easeInOutCos
    IndexTs.bellCurve IndexTs.clamp01 IndexTs.RIPPLE_SHIFT IndexTs.LIFT_EASE_POW
    IndexTs.BELL_SHAPE
  norm_num [Real.cos_zero, Real.sin_zero, Real.zero_rpow]

lemma IndexTs.motionProfile_one : IndexTs.motionProfile 1 = (1, 0) := by
  unfold IndexTs.motionProfile IndexTs.easeInOutPow IndexTs.easeInOutCos
    IndexTs.bellCurve IndexTs.clamp01 IndexTs.RIPPLE_SHIFT IndexTs.LIFT_EASE_POW
    IndexTs.BELL_SHAPE
  norm_num [Real.cos_pi, Real.sin_pi, Real.zero_rpow]

lemma IndexTs.fillWave_rest (amp : ℝ) (base : List ℝ) (i : ℕ)
    (hi : i < base.length) :
    (IndexTs.fillWaveAtProgress amp base 0).getD i 0 = 100 ∧
    (IndexTs.fillWaveAtProgress amp base 1).getD i 0 = 0 := by
  have key : ∀ (rf0 : ℝ) (o : Option ℝ), rf0 = 0 →
      (match o with
        | none => rf0
        | some l => min rf0 (max 0 (l * 0.98))) = 0 := by
    intro rf0 o h
    cases o with
    | none => exact h
    | some l =>
      rw [h]
      exact min_eq_left (le_max_left 0 _)
  constructor
  · unfold IndexTs.fillWaveAtProgress
    dsimp only
    rw [if_pos le_rfl, IndexTs.motionProfile_zero]
    rw [key _ _ (by norm_num [IndexTs.RIPPLE_GAIN])]
    rw [List.getD_eq_getElem _ _ (by simpa using hi), List.getElem_map]
    norm_num [lerp, clamp]
  · unfold IndexTs.fillWaveAtProgress
    dsimp only
    rw [if_neg (by norm_num), if_pos le_rfl, IndexTs.motionProfile_one]
    rw [key _ _ (by norm_num [IndexTs.RIPPLE_GAIN])]
    rw [List.getD_eq_getElem _ _ (by simpa using hi), List.getElem_map]
    norm_num [lerp, clamp]

/-- C2: at local progress 0 the height function yields 100 at every point and
at local progress 1 it yields 0 at every point, for every profile and every
amplitude, in both the part_000 variant (`fillWaveYAtProgress`) and the
overflow-safe variant (`fillWaveAtProgress` via `motionProfile`), because the
ripple bell factor vanishes at both endpoints. -/
theorem claim2_rest_states (amp : ℝ) (bf : ℕ → ℝ) (base : List ℝ) (i : ℕ)
    (hi : i < base.length) :
    Part000.fillWaveYAtProgress amp bf 0 i = 100 ∧
    Part000.fillWaveYAtProgress amp bf 1 i = 0 ∧
    (IndexTs.fillWaveAtProgress amp base 0).getD i 0 = 100 ∧
    (IndexTs.fillWaveAtProgress amp base 1).getD i 0 = 0 := by
  refine ⟨?_, ?_, (IndexTs.fillWave_rest amp base i hi).1,
    (IndexTs.fillWave_rest amp base i hi).2⟩
  · unfold Part000.fillWaveYAtProgress Part000.clamp01
    norm_num [Part000.EDGE_EPS_P, Part000.RIPPLE_GAIN, lerp, clamp,
      Real.sin_zero]
  · unfold Part000.fillWaveYAtProgress Part000.clamp01
    norm_num [Part000.EDGE_EPS_P, Part000.RIPPLE_GAIN, lerp, clamp,
      Real.sin_pi]

/-- Witness for C2 at a concrete profile and amplitude. -/
theorem claim2_rest_states_witness :
    0 < [(1 : ℝ), -1].length ∧
    (Part000.fillWaveYAtProgress 30 (fun _ => 1) 0 0 = 100 ∧
      Part000.fillWaveYAtProgress 30 (fun _ => 1) 1 0 = 0 ∧
      (IndexTs.fillWaveAtProgress 30 [(1 : ℝ), -1] 0).getD 0 0 = 100 ∧
      (IndexTs.fillWaveAtProgress 30 [(1 : ℝ), -1] 1).getD 0 0 = 0) :=
  ⟨by norm_num, claim2_rest_states 30 (fun _ => 1) [(1 : ℝ), -1] 0 (by norm_num)⟩

/-! ## C3 -/

/-- C3: on every step, each layer's start delay is `delay * i` when opening
and `delay * (layerCount - 1 - i)` when closing, and its local progress is
`clamp((globalTime - layerDelay) / duration, 0, 1)` — the code of both
variants matches the spec formulas exactly (with `globalTime = clamp01(g) *
total`). -/
theorem claim3_layer_schedule (s : Part000.WPState) (op : Bool) (g : ℝ)
    (dur delay : ℝ) (n i : ℕ) :
    Part000.layerDelayAt s op i
        = SpecModel.layerDelay s.delayPaths op s.pathCount i ∧
    Part000.localProgressAt s op g i
        = SpecModel.localProgress s.duration s.delayPaths op s.pathCount
            (Part000.tNowAt s g) i ∧
    IndexTs.localProgressAt dur delay op n g i
        = SpecModel.localProgress dur delay op n
            (IndexTs.clamp01 g * (dur + delay * ((n : ℝ) - 1))) i := by
  have harg : ∀ c d : ℝ, c - 1 - d = c - d - 1 := by intro c d; ring
  refine ⟨?_, ?_, ?_⟩
  · unfold Part000.layerDelayAt Part000.layerIndexVal SpecModel.layerDelay
    cases op
    · simp only [Bool.false_eq_true, if_false, harg]
    · rfl
  · unfold Part000.localProgressAt SpecModel.localProgress
      Part000.layerDelayAt Part000.layerIndexVal SpecModel.layerDelay
    rw [Part000.clamp01_as_minmax]
    cases op
    · simp only [Bool.false_eq_true, if_false, harg]
    · rfl
  · unfold IndexTs.localProgressAt SpecModel.localProgress
      IndexTs.layerIndexVal SpecModel.layerDelay
    rw [IndexTs.clamp01_to_minmax]
    cases op
    · simp only [Bool.false_eq_true, if_false, harg]
    · rfl

/-! ## C4 -/

lemma Part000.tVal_mem (n i : ℕ) (hn : 2 ≤ n) (hi : i < n) :
    0 ≤ Part000.tVal n i ∧ Part000.tVal n i ≤ 1 := by
  have hne : n ≠ 1 := by omega
  have h2 : (2 : ℝ) ≤ (n : ℝ) := by exact_mod_cast hn
  have hpos : (0 : ℝ) < (n : ℝ) - 1 := by linarith
  have hile : (i : ℝ) ≤ (n : ℝ) - 1 := by
    have : (i : ℝ) + 1 ≤ (n : ℝ) := by exact_mod_cast hi
    linarith
  unfold Part000.tVal
  rw [if_neg hne]
  exact ⟨div_nonneg (Nat.cast_nonneg i) hpos.le, (div_le_one hpos).mpr hile⟩

lemma Part000.envVal_mem (n i : ℕ) (hn : 2 ≤ n) (hi : i < n) :
    0 ≤ Part000.envVal n i ∧ Part000.envVal n i ≤ 1 := by
  obtain ⟨ht0, ht1⟩ := Part000.tVal_mem n i hn hi
  have habs : |2 * Part000.tVal n i - 1| ≤ 1 :=
    abs_le.mpr ⟨by linarith, by linarith⟩
  have hb0 : 0 ≤ 1 - |2 * Part000.tVal n i - 1| := by linarith
  have hb1 : 1 - |2 * Part000.tVal n i - 1| ≤ 1 := by
    have := abs_nonneg (2 * Part000.tVal n i - 1)
    linarith
  unfold Part000.envVal
  exact ⟨Real.rpow_nonneg hb0 _,
    Real.rpow_le_one hb0 hb1 (by norm_num [Part000.ENV_POWER])⟩

/-- C4: the rolled profile entry equals
`sin(t_i * pi * 2 + phase) * (1 - |2 t_i - 1|)^0.5` with `t_i = i/(n-1)`;
consequently every entry lies in `[-1, 1]` and the first and the last entry
are 0. -/
theorem claim4_profile_formula (n : ℕ) (phase : ℝ) (i : ℕ)
    (hn : 2 ≤ n) (hi : i < n) :
    Part000.profileOf n phase i
        = Real.sin ((i : ℝ) / ((n : ℝ) - 1) * Real.pi * 2 + phase) *
            (1 - |2 * ((i : ℝ) / ((n : ℝ) - 1)) - 1|) ^ (0.5 : ℝ) ∧
    -1 ≤ Part000.profileOf n phase i ∧ Part000.profileOf n phase i ≤ 1 ∧
    Part000.profileOf n phase 0 = 0 ∧ Part000.profileOf n phase (n - 1) = 0 := by
  have hne : n ≠ 1 := by omega
  have h2 : (2 : ℝ) ≤ (n : ℝ) := by exact_mod_cast hn
  have hpos : (0 : ℝ) < (n : ℝ) - 1 := by linarith
  have htv : ∀ j : ℕ, Part000.tVal n j = (j : ℝ) / ((n : ℝ) - 1) := by
    intro j; unfold Part000.tVal; rw [if_neg hne]
  refine ⟨?_, ?_, ?_, ?_, ?_⟩
  · unfold Part000.profileOf Part000.envVal Part000.RIPPLE_FREQ
      Part000.ENV_POWER
    rw [htv i]
  · have habs : |Part000.profileOf n phase i| ≤ 1 := by
      unfold Part000.profileOf
      rw [abs_mul]
      obtain ⟨he0, he1⟩ := Part000.envVal_mem n i hn hi
      calc |Real.sin (Part000.tVal n i * Real.pi * Part000.RIPPLE_FREQ + phase)| *
            |Part000.envVal n i|
          ≤ 1 * 1 := by
            apply mul_le_mul (Real.abs_sin_le_one _) _ (abs_nonneg _) (by norm_num)
            rw [abs_of_nonneg he0]; exact he1
        _ = 1 := by norm_num
    exact (abs_le.mp habs).1
  · have habs : |Part000.profileOf n phase i| ≤ 1 := by
      unfold Part000.profileOf
      rw [abs_mul]
      obtain ⟨he0, he1⟩ := Part000.envVal_mem n i hn hi
      calc |Real.sin (Part000.tVal n i * Real.pi * Part000.RIPPLE_FREQ + phase)| *
            |Part000.envVal n i|
          ≤ 1 * 1 := by
            apply mul_le_mul (Real.abs_sin_le_one _) _ (abs_nonneg _) (by norm_num)
            rw [abs_of_nonneg he0]; exact he1
        _ = 1 := by norm_num
    exact (abs_le.mp habs).2
  · have henv : Part000.envVal n 0 = 0 := by
      unfold Part000.envVal
      rw [htv 0]
      norm_num
      exact Real.zero_rpow (by norm_num [Part000.ENV_POWER])
    unfold Part000.profileOf
    rw [henv, mul_zero]
  · have htlast : Part000.tVal n (n - 1) = 1 := by
      rw [htv (n - 1)]
      have hcast : ((n - 1 : ℕ) : ℝ) = (n : ℝ) - 1 := by
        have h1n : 1 ≤ n := by omega
        push_cast [Nat.cast_sub h1n]
        ring
      rw [hcast]
      exact div_self (ne_of_gt hpos)
    have henv : Part000.envVal n (n - 1) = 0 := by
      unfold Part000.envVal
      rw [htlast]
      norm_num
      exact Real.zero_rpow (by norm_num [Part000.ENV_POWER])
    unfold Part000.profileOf
    rw [henv, mul_zero]

/-- Witness for C4 at `n = 4`, `phase = 0`, `i = 1`. -/
theorem claim4_profile_formula_witness :
    (2 ≤ 4 ∧ 1 < 4) ∧
    (Part000.profileOf 4 0 1
        = Real.sin ((1 : ℝ) / ((4 : ℝ) - 1) * Real.pi * 2 + 0) *
            (1 - |2 * ((1 : ℝ) / ((4 : ℝ) - 1)) - 1|) ^ (0.5 : ℝ) ∧
      -1 ≤ Part000.profileOf 4 0 1 ∧ Part000.profileOf 4 0 1 ≤ 1 ∧
      Part000.profileOf 4 0 0 = 0 ∧ Part000.profileOf 4 0 (4 - 1) = 0) :=
  ⟨⟨by norm_num, by norm_num⟩, by
    have h := claim4_profile_formula 4 0 1 (by norm_num) (by norm_num)
    simpa using h⟩

/-! ## C5 -/

lemma Part000.setPathD_tl (s : Part000.WPState) (i : ℕ) (d : String) :
    (Part000.setPathD s i d).tl = s.tl := by
  unfold Part000.setPathD
  split_ifs <;> rfl

lemma Part000.foldl_setPathD_tl (l : List ℕ) (d : String) (s : Part000.WPState) :
    (l.foldl (fun a i => Part000.setPathD a i d) s).tl = s.tl := by
  induction l generalizing s with
  | nil => rfl
  | cons a t ih => rw [List.foldl_cons, ih, Part000.setPathD_tl]

/-- C5 counterexample: in the overflow-safe variant, before initialization
(`pathCount = 0`, duration 1s, delay 0.25s) `totalDurationMs()` returns 750,
not 0; and in the part_000 variant, right after a successful `init()` with 2
layers it returns 0 although the claimed formula gives 1250. -/
theorem claim5_counterexample :
    IndexTs.totalDurationMs 1 (1/4) 0 = 750 ∧ (750 : ℤ) ≠ 0 ∧
    Part000.totalDurationMs
        (Part000.initRun true 2
          (Part000.mkState 4 30 (1/4) 1 false (fun _ => ""))) = 0 ∧
    IndexTs.totalDurationMs 1 (1/4) 2 = 1250 ∧ (0 : ℤ) ≠ 1250 := by
  refine ⟨?_, by norm_num, ?_, ?_, by norm_num⟩
  · norm_num [IndexTs.totalDurationMs, round_eq]
  · have h : (Part000.initRun true 2
        (Part000.mkState 4 30 (1/4) 1 false (fun _ => ""))).tl = none := by
      simp [Part000.initRun, Part000.foldl_setPathD_tl, Part000.allocateCaches,
        Part000.killTimeline, Part000.mkState]
    unfold Part000.totalDurationMs
    rw [h]
  · norm_num [IndexTs.totalDurationMs, round_eq]

/-- C5 amended: `totalDurationMs()` (overflow-safe variant) always returns
`round((duration + delay * (pathCount - 1)) * 1000)` computed from the layer
count current at call time; with at least one layer this is the spec formula,
while before initialization the layer count is 0 and the result is
`round((duration - delay) * 1000)` rather than 0.  (In the part_000 variant
the result is 0 whenever no timeline object exists, including right after
`init()`.) -/
theorem claim5_amended (d δ : ℚ) (n : ℕ) (h : 1 ≤ n) :
    IndexTs.totalDurationMs d δ n = round ((d + δ * ((n - 1 : ℕ) : ℚ)) * 1000) ∧
    IndexTs.totalDurationMs d δ 0 = round ((d - δ) * 1000) := by
  constructor
  · unfold IndexTs.totalDurationMs
    rw [Nat.cast_sub h, Nat.cast_one]
  · unfold IndexTs.totalDurationMs
    congr 1
    push_cast
    ring

/-- Witness for the amended C5 at 3 layers, duration 1s, delay 0.25s. -/
theorem claim5_amended_witness :
    (1 : ℕ) ≤ 3 ∧
    (IndexTs.totalDurationMs 1 (1/4) 3
        = round (((1 : ℚ) + (1/4) * ((3 - 1 : ℕ) : ℚ)) * 1000) ∧
      IndexTs.totalDurationMs 1 (1/4) 0 = round (((1 : ℚ) - 1/4) * 1000)) :=
  ⟨by norm_num, claim5_amended 1 (1/4) 3 (by norm_num)⟩

/-! ## C6 -/

/-- C6 counterexample: with the default point count 4, part_000's geometry
precomputation renders the first anchor x position as `"33.33"` — two decimal
places — and its numeric value `33.33` is not expressible on one decimal
place. -/
theorem claim6_counterexample :
    Part000.pStrOf 4 0 = "33.33" ∧
    (10 * Part000.fmtVal (Part000.pValQ 4 0)).den ≠ 1 := by
  have hseg : Part000.segCountOf 4 = 3 := rfl
  have hround : (round (Part000.pValQ 4 0 * 100) : ℤ) = 3333 := by
    norm_num [Part000.pValQ, Part000.stepQ, hseg, round_eq]
  constructor
  · unfold Part000.pStrOf Part000.fmt
    rw [hround]
    decide
  · have h : Part000.fmtVal (Part000.pValQ 4 0) = 3333/100 := by
      unfold Part000.fmtVal
      rw [hround]
      norm_num
    rw [h]
    have : (10 * ((3333 : ℚ)/100)).den = 10 := by norm_num [Rat.den]
    rw [this]
    norm_num

/-- C6 amended: part_000's x-position strings are rounded to *two* decimal
places (`Math.round(n * 100) / 100`), integer values being rendered without a
trailing fractional part, whereas the overflow-safe variant's `fmt` rounds to
one decimal place as the spec states. -/
theorem claim6_amended (q : ℚ) (h : (100 : ℤ) ∣ round (q * 100)) :
    (∃ k : ℤ, Part000.fmtVal q = (k : ℚ) / 100) ∧
    Part000.fmt q = toString (round (q * 100) / 100 : ℤ) ∧
    (∃ k : ℤ, IndexTs.fmtVal q = (k : ℚ) / 10) := by
  refine ⟨⟨round (q * 100), by unfold Part000.fmtVal; norm_num⟩, ?_,
    ⟨round (q * 10), by unfold IndexTs.fmtVal; norm_num⟩⟩
  unfold Part000.fmt decStr2
  rw [if_pos (Int.emod_eq_zero_of_dvd h)]

/-- Witness for the amended C6 at the integer anchor value 25. -/
theorem claim6_amended_witness :
    (100 : ℤ) ∣ round ((25 : ℚ) * 100) ∧
    ((∃ k : ℤ, Part000.fmtVal 25 = (k : ℚ) / 100) ∧
      Part000.fmt 25 = toString (round ((25 : ℚ) * 100) / 100 : ℤ) ∧
      (∃ k : ℤ, IndexTs.fmtVal 25 = (k : ℚ) / 10)) := by
  have hr : (round ((25 : ℚ) * 100) : ℤ) = 2500 := by norm_num [round_eq]
  have hd : (100 : ℤ) ∣ round ((25 : ℚ) * 100) := by rw [hr]; norm_num
  exact ⟨hd, claim6_amended 25 hd⟩

/-! ## Render-loop lemmas shared by the run-level claims -/

lemma Part000.clamp01_nonneg (x : ℝ) : 0 ≤ Part000.clamp01 x := by
  rw [Part000.clamp01_as_minmax]
  exact le_min (by norm_num) (le_max_left 0 x)

lemma Part000.localProgressAt_nonneg (s : Part000.WPState) (op : Bool) (g : ℝ)
    (i : ℕ) : 0 ≤ Part000.localProgressAt s op g i := by
  unfold Part000.localProgressAt
  exact Part000.clamp01_nonneg _

lemma Part000.localProgressAt_congr (t s : Part000.WPState) (op : Bool) (g : ℝ)
    (i : ℕ) (h1 : t.pathCount = s.pathCount) (h2 : t.delayPaths = s.delayPaths)
    (h3 : t.duration = s.duration) :
    Part000.localProgressAt t op g i = Part000.localProgressAt s op g i := by
  unfold Part000.localProgressAt Part000.tNowAt Part000.layerDelayAt
    Part000.layerIndexVal Part000.totalTime
  rw [h1, h2, h3]

lemma Part000.sameAt_refl (i : ℕ) (s : Part000.WPState) : Part000.SameAt i s s := by
  unfold Part000.SameAt
  exact ⟨rfl, rfl, rfl, rfl, rfl, rfl, rfl, rfl, rfl, rfl, rfl, rfl, rfl, rfl⟩

lemma Part000.sameAt_trans {i : ℕ} {u t s : Part000.WPState}
    (h1 : Part000.SameAt i u t) (h2 : Part000.SameAt i t s) :
    Part000.SameAt i u s := by
  unfold Part000.SameAt at h1 h2 ⊢
  obtain ⟨a1, a2, a3, a4, a5, a6, a7, a8, a9, a10, a11, a12, a13, a14⟩ := h1
  obtain ⟨b1, b2, b3, b4, b5, b6, b7, b8, b9, b10, b11, b12, b13, b14⟩ := h2
  exact ⟨a1.trans b1, a2.trans b2, a3.trans b3, a4.trans b4, a5.trans b5,
    a6.trans b6, a7.trans b7, a8.trans b8, a9.trans b9, a10.trans b10,
    a11.trans b11, a12.trans b12, a13.trans b13, a14.trans b14⟩

lemma Part000.setPathD_sameAt (s : Part000.WPState) (j i : ℕ) (d : String)
    (h : j ≠ i) : Part000.SameAt i (Part000.setPathD s j d) s := by
  unfold Part000.setPathD Part000.SameAt
  split_ifs
  · exact ⟨rfl, rfl, rfl, rfl, rfl, rfl, rfl, rfl, rfl, rfl, rfl, rfl, rfl, rfl⟩
  · refine ⟨rfl, ?_, ?_, rfl, rfl, rfl, rfl, rfl, rfl, rfl, rfl, rfl, rfl, rfl⟩
    · exact Function.update_noteq (Ne.symm h) d s.prevD
    · exact Function.update_noteq (Ne.symm h) d s.dom

lemma Part000.renderLayer_sameAt (op : Bool) (g : ℝ) (s : Part000.WPState)
    (j i : ℕ) (h : j ≠ i) :
    Part000.SameAt i (Part000.renderLayer op g s j) s := by
  unfold Part000.renderLayer
  split_ifs
  · exact Part000.sameAt_refl i s
  · refine Part000.sameAt_trans (Part000.setPathD_sameAt _ j i _ h) ?_
    unfold Part000.SameAt
    refine ⟨?_, rfl, rfl, ?_, rfl, rfl, rfl, rfl, rfl, rfl, rfl, rfl, rfl, rfl⟩
    · exact Function.update_noteq (Ne.symm h) _ s.lastLocalP
    · exact Function.update_noteq (Ne.symm h) _ s.yWork

lemma Part000.foldl_renderLayer_sameAt (op : Bool) (g : ℝ) (i : ℕ)
    (l : List ℕ) (hl : ∀ j ∈ l, j ≠ i) (s : Part000.WPState) :
    Part000.SameAt i (l.foldl (Part000.renderLayer op g) s) s := by
  induction l generalizing s with
  | nil => exact Part000.sameAt_refl i s
  | cons a t ih =>
    rw [List.foldl_cons]
    exact Part000.sameAt_trans
      (ih (fun j hj => hl j (List.mem_cons_of_mem a hj)) _)
      (Part000.renderLayer_sameAt op g s a i (hl a (List.mem_cons_self a t)))

lemma Part000.setPathD_lastLocalP (s : Part000.WPState) (i : ℕ) (d : String) :
    (Part000.setPathD s i d).lastLocalP = s.lastLocalP := by
  unfold Part000.setPathD
  split_ifs <;> rfl

lemma Part000.setPathD_yWork (s : Part000.WPState) (i : ℕ) (d : String) :
    (Part000.setPathD s i d).yWork = s.yWork := by
  unfold Part000.setPathD
  split_ifs <;> rfl

lemma Part000.range_decomp (i n : ℕ) (hi : i < n) :
    List.range n
      = List.range i ++ i :: (List.range (n - (i + 1))).map ((i + 1) + ·) := by
  have h1 : n = (i + 1) + (n - (i + 1)) := by omega
  conv_lhs => rw [h1]
  rw [List.range_add, List.range_succ _, List.append_assoc, List.singleton_append]

lemma Part000.renderAll_split (op : Bool) (g : ℝ) (s : Part000.WPState) (i : ℕ)
    (hi : i < s.pathCount) :
    Part000.renderAll op g s
      = ((List.range (s.pathCount - (i + 1))).map ((i + 1) + ·)).foldl
          (Part000.renderLayer op g)
          (Part000.renderLayer op g
            ((List.range i).foldl (Part000.renderLayer op g) s) i) := by
  unfold Part000.renderAll
  rw [Part000.range_decomp i s.pathCount hi, List.foldl_append, List.foldl_cons]

lemma Part000.renderAll_recompute (op : Bool) (g : ℝ) (s : Part000.WPState)
    (i : ℕ) (hi : i < s.pathCount) (hneg : s.lastLocalP i < 0) :
    (Part000.renderAll op g s).lastLocalP i = Part000.localProgressAt s op g i ∧
    (Part000.renderAll op g s).yWork i
      = fun j => Part000.fillWaveYAtProgress s.amplitude s.baseSinEnv
          (Part000.localProgressAt s op g i) j := by
  obtain ⟨e1, e2, e3, e4, e5, e6, e7, e8, e9, e10, e11, e12, e13, e14⟩ :=
    Part000.foldl_renderLayer_sameAt op g i (List.range i)
      (fun j hj => by have := List.mem_range.mp hj; omega) s
  set s1 := (List.range i).foldl (Part000.renderLayer op g) s with hs1def
  have hlp : Part000.localProgressAt s1 op g i = Part000.localProgressAt s op g i :=
    Part000.localProgressAt_congr _ _ op g i e6 e9 e10
  have hskip : ¬(0 ≤ s1.lastLocalP i ∧
      |Part000.localProgressAt s1 op g i - s1.lastLocalP i| < Part000.SKIP_DELTA_P) := by
    rw [e1]
    intro hc
    linarith [hc.1]
  have hstep : Part000.renderLayer op g s1 i
      = Part000.setPathD
          { s1 with
            lastLocalP := Function.update s1.lastLocalP i
              (Part000.localProgressAt s1 op g i)
            yWork := Function.update s1.yWork i
              (fun j => Part000.fillWaveYAtProgress s1.amplitude s1.baseSinEnv
                (Part000.localProgressAt s1 op g i) j) }
          i
          (Part000.buildDCubic s1.numberPoints
            (fun j => Part000.fillWaveYAtProgress s1.amplitude s1.baseSinEnv
              (Part000.localProgressAt s1 op g i) j)
            op) := by
    unfold Part000.renderLayer
    rw [if_neg hskip]
  obtain ⟨f1, f2, f3, f4, f5, f6, f7, f8, f9, f10, f11, f12, f13, f14⟩ :=
    Part000.foldl_renderLayer_sameAt op g i
      ((List.range (s.pathCount - (i + 1))).map ((i + 1) + ·))
      (fun j hj => by
        obtain ⟨x, _, rfl⟩ := List.mem_map.mp hj
        omega)
      (Part000.renderLayer op g s1 i)
  rw [Part000.renderAll_split op g s i hi]
  constructor
  · rw [f1, hstep, Part000.setPathD_lastLocalP]
    dsimp only
    rw [Function.update_same, hlp]
  · rw [f4, hstep, Part000.setPathD_yWork]
    dsimp only
    rw [Function.update_same, hlp, e8, e14]

lemma Part000.renderAll_skip (op : Bool) (g : ℝ) (s : Part000.WPState)
    (i : ℕ) (hi : i < s.pathCount) (h0 : 0 ≤ s.lastLocalP i)
    (hd : |Part000.localProgressAt s op g i - s.lastLocalP i| < Part000.SKIP_DELTA_P) :
    (Part000.renderAll op g s).lastLocalP i = s.lastLocalP i ∧
    (Part000.renderAll op g s).prevD i = s.prevD i ∧
    (Part000.renderAll op g s).dom i = s.dom i ∧
    (Part000.renderAll op g s).yWork i = s.yWork i := by
  obtain ⟨e1, e2, e3, e4, e5, e6, e7, e8, e9, e10, e11, e12, e13, e14⟩ :=
    Part000.foldl_renderLayer_sameAt op g i (List.range i)
      (fun j hj => by have := List.mem_range.mp hj; omega) s
  set s1 := (List.range i).foldl (Part000.renderLayer op g) s with hs1def
  have hlp : Part000.localProgressAt s1 op g i = Part000.localProgressAt s op g i :=
    Part000.localProgressAt_congr _ _ op g i e6 e9 e10
  have hstep : Part000.renderLayer op g s1 i = s1 := by
    unfold Part000.renderLayer
    rw [if_pos]
    rw [e1, hlp]
    exact ⟨h0, hd⟩
  obtain ⟨f1, f2, f3, f4, f5, f6, f7, f8, f9, f10, f11, f12, f13, f14⟩ :=
    Part000.foldl_renderLayer_sameAt op g i
      ((List.range (s.pathCount - (i + 1))).map ((i + 1) + ·))
      (fun j hj => by
        obtain ⟨x, _, rfl⟩ := List.mem_map.mp hj
        omega)
      (Part000.renderLayer op g s1 i)
  rw [Part000.renderAll_split op g s i hi, hstep]
  rw [hstep] at f1 f2 f3 f4
  exact ⟨f1.trans e1, f2.trans e2, f3.trans e3, f4.trans e4⟩

/-! ## C7 -/

lemma Part000.setPathD_prevD_self (s : Part000.WPState) (i : ℕ) (d : String) :
    (Part000.setPathD s i d).prevD i = d := by
  unfold Part000.setPathD
  split_ifs with h
  · exact h
  · exact Function.update_same i d s.prevD

lemma Part000.setPathD_prevD_other (s : Part000.WPState) (j i : ℕ) (d : String)
    (h : j ≠ i) : (Part000.setPathD s j d).prevD i = s.prevD i := by
  unfold Part000.setPathD
  split_ifs
  · rfl
  · exact Function.update_noteq (Ne.symm h) d s.prevD

lemma Part000.foldl_setPathD_prevD_not_mem (l : List ℕ) (d : String) (i : ℕ)
    (hi : i ∉ l) (s : Part000.WPState) :
    ((l.foldl (fun a j => Part000.setPathD a j d) s)).prevD i = s.prevD i := by
  induction l generalizing s with
  | nil => rfl
  | cons a t ih =>
    rw [List.foldl_cons]
    rw [ih (fun hmem => hi (List.mem_cons_of_mem a hmem)) _]
    exact Part000.setPathD_prevD_other s a i d
      (fun he => hi (he ▸ List.mem_cons_self a t))

lemma Part000.foldl_setPathD_prevD_mem (l : List ℕ) (d : String) (i : ℕ)
    (hi : i ∈ l) (s : Part000.WPState) :
    ((l.foldl (fun a j => Part000.setPathD a j d) s)).prevD i = d := by
  induction l generalizing s with
  | nil => cases hi
  | cons a t ih =>
    rw [List.foldl_cons]
    by_cases hmem : i ∈ t
    · exact ih hmem _
    · have ha : i = a := by
        rcases List.mem_cons.mp hi with h | h
        · exact h
        · exact absurd h hmem
      subst ha
      rw [Part000.foldl_setPathD_prevD_not_mem t d i hmem _]
      exact Part000.setPathD_prevD_self s i d

/-- C7: on a render step, any layer whose freshly computed local progress is
within `SKIP_DELTA_P` of its recorded one is skipped: its emitted curve string
(cache and DOM attribute alike) is unchanged; the forced terminal frame, by
contrast, always leaves the flat rest shape in every layer's emit cache. -/
theorem claim7_diff_skip (s : Part000.WPState) (op : Bool) (g : ℝ) (i : ℕ)
    (hi : i < s.pathCount)
    (hlast : s.lastLocalP i = -1 ∨ 0 ≤ s.lastLocalP i)
    (hd : |Part000.localProgressAt s op g i - s.lastLocalP i| < Part000.SKIP_DELTA_P) :
    (Part000.renderAll op g s).prevD i = s.prevD i ∧
    (Part000.renderAll op g s).dom i = s.dom i ∧
    (∀ j < s.pathCount, (Part000.finishRun op s).prevD j
        = Part000.buildDCubic s.numberPoints (fun _ => 0) op) := by
  have h0 : 0 ≤ s.lastLocalP i := by
    rcases hlast with h | h
    · exfalso
      have hge : 0 ≤ Part000.localProgressAt s op g i :=
        Part000.localProgressAt_nonneg s op g i
      rw [h] at hd
      have habs := abs_lt.mp hd
      unfold Part000.SKIP_DELTA_P at habs
      have : Part000.localProgressAt s op g i - -1 < 0.0015 := habs.2
      linarith
    · exact h
  obtain ⟨k1, k2, k3, k4⟩ := Part000.renderAll_skip op g s i hi h0 hd
  refine ⟨k2, k3, ?_⟩
  intro j hj
  unfold Part000.finishRun
  dsimp only
  exact Part000.foldl_setPathD_prevD_mem _ _ j (List.mem_range.mpr hj) s

/-- Witness for C7: a single layer at recorded progress 1/2 stepped to the
same local progress 1/2. -/
theorem claim7_diff_skip_witness :
    (0 < ({ Part000.mkState 4 30 0 1 false (fun _ => "") with
        svg := true, pathCount := 1,
        lastLocalP := fun _ => 1/2 } : Part000.WPState).pathCount ∧
      (0 : ℝ) ≤ ({ Part000.mkState 4 30 0 1 false (fun _ => "") with
        svg := true, pathCount := 1,
        lastLocalP := fun _ => 1/2 } : Part000.WPState).lastLocalP 0 ∧
      |Part000.localProgressAt ({ Part000.mkState 4 30 0 1 false (fun _ => "") with
          svg := true, pathCount := 1, lastLocalP := fun _ => 1/2 }) true (1/2) 0 -
        ({ Part000.mkState 4 30 0 1 false (fun _ => "") with
          svg := true, pathCount := 1,
          lastLocalP := fun _ => 1/2 } : Part000.WPState).lastLocalP 0|
        < Part000.SKIP_DELTA_P) ∧
    ((Part000.renderAll true (1/2)
        ({ Part000.mkState 4 30 0 1 false (fun _ => "") with
          svg := true, pathCount := 1, lastLocalP := fun _ => 1/2 })).prevD 0
      = ({ Part000.mkState 4 30 0 1 false (fun _ => "") with
          svg := true, pathCount := 1,
          lastLocalP := fun _ => 1/2 } : Part000.WPState).prevD 0) := by
  have hlp : Part000.localProgressAt
      ({ Part000.mkState 4 30 0 1 false (fun _ => "") with
        svg := true, pathCount := 1, lastLocalP := fun _ => 1/2 }) true (1/2) 0
      = 1/2 := by
    unfold Part000.localProgressAt Part000.tNowAt Part000.layerDelayAt
      Part000.layerIndexVal Part000.totalTime Part000.mkState
    norm_num [Part000.clamp01]
  refine ⟨⟨by norm_num, by norm_num, ?_⟩, ?_⟩
  · rw [hlp]
    norm_num [Part000.mkState, Part000.SKIP_DELTA_P]
  · refine (claim7_diff_skip _ true (1/2) 0 (by norm_num)
      (Or.inr (by norm_num [Part000.mkState])) ?_).1
    rw [hlp]
    norm_num [Part000.mkState, Part000.SKIP_DELTA_P]

/-! ## C10 -/

lemma Part000.runSetup_fields (phase : ℝ) (s : Part000.WPState) :
    (Part000.runSetup phase s).pathCount = s.pathCount ∧
    (Part000.runSetup phase s).numberPoints = s.numberPoints ∧
    (Part000.runSetup phase s).amplitude = s.amplitude ∧
    (Part000.runSetup phase s).delayPaths = s.delayPaths ∧
    (Part000.runSetup phase s).duration = s.duration ∧
    (Part000.runSetup phase s).opened = s.opened ∧
    (Part000.runSetup phase s).svg = s.svg ∧
    (Part000.runSetup phase s).phase = phase ∧
    (Part000.runSetup phase s).baseSinEnv = Part000.profileOf s.numberPoints phase ∧
    (Part000.runSetup phase s).prevD = s.prevD ∧
    (Part000.runSetup phase s).dom = s.dom ∧
    (Part000.runSetup phase s).yWork = s.yWork ∧
    ((Part000.runSetup phase s).lastLocalP
      = fun i => if i < s.pathCount then -1 else s.lastLocalP i) ∧
    (Part000.runSetup phase s).tl = some (Part000.totalTime s, true) := by
  unfold Part000.runSetup Part000.rollProfile Part000.killTimeline
    Part000.totalTime
  cases htl : s.tl <;>
    exact ⟨rfl, rfl, rfl, rfl, rfl, rfl, rfl, rfl, rfl, rfl, rfl, rfl, rfl, rfl⟩

lemma Part000.runSetup_renderAll_at (op : Bool) (phase g : ℝ)
    (s : Part000.WPState) (i : ℕ) (hi : i < s.pathCount) :
    (Part000.renderAll op g (Part000.runSetup phase s)).lastLocalP i
        = Part000.localProgressAt s op g i ∧
    (Part000.renderAll op g (Part000.runSetup phase s)).yWork i
        = fun j => Part000.fillWaveYAtProgress s.amplitude
            (Part000.profileOf s.numberPoints phase)
            (Part000.localProgressAt s op g i) j := by
  obtain ⟨h1, h2, h3, h4, h5, h6, h7, h8, h9, h10, h11, h12, h13, h14⟩ :=
    Part000.runSetup_fields phase s
  have hneg : (Part000.runSetup phase s).lastLocalP i = -1 := by
    rw [h13]
    exact if_pos hi
  have hi' : i < (Part000.runSetup phase s).pathCount := by
    rw [h1]
    exact hi
  have hrec := Part000.renderAll_recompute op g (Part000.runSetup phase s) i hi'
    (by rw [hneg]; norm_num)
  have hlp : Part000.localProgressAt (Part000.runSetup phase s) op g i
      = Part000.localProgressAt s op g i :=
    Part000.localProgressAt_congr _ _ op g i h1 h4 h5
  constructor
  · rw [hrec.1, hlp]
  · rw [hrec.2, hlp, h3, h9]

/-- C10: at the start of every run each layer's recorded local progress is
reset to `-1`, and since the diff-skip guard requires a nonnegative recorded
value, the run's first render recomputes every layer's heights from the fresh
profile regardless of what any earlier (finished or cancelled) run left in the
skip cache. -/
theorem claim10_first_render (s : Part000.WPState) (op : Bool) (phase g : ℝ)
    (i : ℕ) (hi : i < s.pathCount) :
    (Part000.runSetup phase s).lastLocalP i = -1 ∧
    (Part000.renderAll op g (Part000.runSetup phase s)).lastLocalP i
        = Part000.localProgressAt s op g i ∧
    (Part000.renderAll op g (Part000.runSetup phase s)).yWork i
        = fun j => Part000.fillWaveYAtProgress s.amplitude
            (Part000.profileOf s.numberPoints phase)
            (Part000.localProgressAt s op g i) j := by
  obtain ⟨h1, h2, h3, h4, h5, h6, h7, h8, h9, h10, h11, h12, h13, h14⟩ :=
    Part000.runSetup_fields phase s
  refine ⟨?_, Part000.runSetup_renderAll_at op phase g s i hi⟩
  rw [h13]
  exact if_pos hi

/-- Witness for C10: one layer, arbitrary stale skip cache value 0.7. -/
theorem claim10_first_render_witness :
    0 < ({ Part000.mkState 4 30 (1/4) 1 false (fun _ => "") with
        pathCount := 1, lastLocalP := fun _ => 0.7 } : Part000.WPState).pathCount ∧
    ((Part000.runSetup 0 ({ Part000.mkState 4 30 (1/4) 1 false (fun _ => "") with
        pathCount := 1, lastLocalP := fun _ => 0.7 })).lastLocalP 0 = -1 ∧
      (Part000.renderAll true 0 (Part000.runSetup 0
          ({ Part000.mkState 4 30 (1/4) 1 false (fun _ => "") with
            pathCount := 1, lastLocalP := fun _ => 0.7 }))).lastLocalP 0
        = Part000.localProgressAt
            ({ Part000.mkState 4 30 (1/4) 1 false (fun _ => "") with
              pathCount := 1, lastLocalP := fun _ => 0.7 }) true 0 0 ∧
      (Part000.renderAll true 0 (Part000.runSetup 0
          ({ Part000.mkState 4 30 (1/4) 1 false (fun _ => "") with
            pathCount := 1, lastLocalP := fun _ => 0.7 }))).yWork 0
        = fun j => Part000.fillWaveYAtProgress
            ({ Part000.mkState 4 30 (1/4) 1 false (fun _ => "") with
              pathCount := 1,
              lastLocalP := fun _ => 0.7 } : Part000.WPState).amplitude
            (Part000.profileOf
              ({ Part000.mkState 4 30 (1/4) 1 false (fun _ => "") with
                pathCount := 1,
                lastLocalP := fun _ => 0.7 } : Part000.WPState).numberPoints 0)
            (Part000.localProgressAt
              ({ Part000.mkState 4 30 (1/4) 1 false (fun _ => "") with
                pathCount := 1, lastLocalP := fun _ => 0.7 }) true 0 0) j) :=
  ⟨by norm_num,
    claim10_first_render
      ({ Part000.mkState 4 30 (1/4) 1 false (fun _ => "") with
        pathCount := 1, lastLocalP := fun _ => 0.7 }) true 0 0 0 (by norm_num)⟩

/-! ## C8 -/

lemma Part000.renderLayer_config (op : Bool) (g : ℝ) (s : Part000.WPState)
    (j : ℕ) :
    (Part000.renderLayer op g s j).svg = s.svg ∧
    (Part000.renderLayer op g s j).pathCount = s.pathCount ∧
    (Part000.renderLayer op g s j).numberPoints = s.numberPoints ∧
    (Part000.renderLayer op g s j).amplitude = s.amplitude ∧
    (Part000.renderLayer op g s j).delayPaths = s.delayPaths ∧
    (Part000.renderLayer op g s j).duration = s.duration ∧
    (Part000.renderLayer op g s j).opened = s.opened ∧
    (Part000.renderLayer op g s j).tl = s.tl ∧
    (Part000.renderLayer op g s j).phase = s.phase ∧
    (Part000.renderLayer op g s j).baseSinEnv = s.baseSinEnv := by
  unfold Part000.renderLayer Part000.setPathD
  split_ifs <;> exact ⟨rfl, rfl, rfl, rfl, rfl, rfl, rfl, rfl, rfl, rfl⟩

lemma Part000.foldl_renderLayer_config (op : Bool) (g : ℝ) (l : List ℕ)
    (s : Part000.WPState) :
    ((l.foldl (Part000.renderLayer op g) s)).svg = s.svg ∧
    ((l.foldl (Part000.renderLayer op g) s)).pathCount = s.pathCount ∧
    ((l.foldl (Part000.renderLayer op g) s)).numberPoints = s.numberPoints ∧
    ((l.foldl (Part000.renderLayer op g) s)).amplitude = s.amplitude ∧
    ((l.foldl (Part000.renderLayer op g) s)).delayPaths = s.delayPaths ∧
    ((l.foldl (Part000.renderLayer op g) s)).duration = s.duration ∧
    ((l.foldl (Part000.renderLayer op g) s)).opened = s.opened ∧
    ((l.foldl (Part000.renderLayer op g) s)).tl = s.tl ∧
    ((l.foldl (Part000.renderLayer op g) s)).phase = s.phase ∧
    ((l.foldl (Part000.renderLayer op g) s)).baseSinEnv = s.baseSinEnv := by
  induction l generalizing s with
  | nil => exact ⟨rfl, rfl, rfl, rfl, rfl, rfl, rfl, rfl, rfl, rfl⟩
  | cons a t ih =>
    rw [List.foldl_cons]
    obtain ⟨i1, i2, i3, i4, i5, i6, i7, i8, i9, i10⟩ :=
      ih (Part000.renderLayer op g s a)
    obtain ⟨c1, c2, c3, c4, c5, c6, c7, c8, c9, c10⟩ :=
      Part000.renderLayer_config op g s a
    exact ⟨i1.trans c1, i2.trans c2, i3.trans c3, i4.trans c4, i5.trans c5,
      i6.trans c6, i7.trans c7, i8.trans c8, i9.trans c9, i10.trans c10⟩

lemma Part000.renderAll_config (op : Bool) (g : ℝ) (s : Part000.WPState) :
    (Part000.renderAll op g s).svg = s.svg ∧
    (Part000.renderAll op g s).pathCount = s.pathCount ∧
    (Part000.renderAll op g s).numberPoints = s.numberPoints ∧
    (Part000.renderAll op g s).amplitude = s.amplitude ∧
    (Part000.renderAll op g s).delayPaths = s.delayPaths ∧
    (Part000.renderAll op g s).duration = s.duration ∧
    (Part000.renderAll op g s).opened = s.opened ∧
    (Part000.renderAll op g s).tl = s.tl ∧
    (Part000.renderAll op g s).phase = s.phase ∧
    (Part000.renderAll op g s).baseSinEnv = s.baseSinEnv :=
  Part000.foldl_renderLayer_config op g (List.range s.pathCount) s

/-- C8: cancelling an active run with `stopIfActive` leaves every layer's
last-emitted curve string, the `d` attributes, the height buffers and the
skip caches exactly as they were, and the instance is no longer animating; a
subsequent `open()` is not rejected, starts a genuinely fresh run (new phase,
new profile, timeline active) and recomputes every layer from the fresh
profile with no dependence on the cancelled run's per-layer progress. -/
theorem claim8_cancel_preserves (s : Part000.WPState) (phase : ℝ)
    (ha : Part000.isAnimating s = true) :
    (Part000.stopIfActive s).prevD = s.prevD ∧
    (Part000.stopIfActive s).dom = s.dom ∧
    (Part000.stopIfActive s).yWork = s.yWork ∧
    (Part000.stopIfActive s).lastLocalP = s.lastLocalP ∧
    Part000.isAnimating (Part000.stopIfActive s) = false ∧
    (s.svg = true → 0 < s.pathCount →
      (Part000.openRun phase (Part000.stopIfActive s)).opened = true ∧
      Part000.isAnimating (Part000.openRun phase (Part000.stopIfActive s)) = true ∧
      (Part000.openRun phase (Part000.stopIfActive s)).phase = phase ∧
      (Part000.openRun phase (Part000.stopIfActive s)).baseSinEnv
          = Part000.profileOf s.numberPoints phase ∧
      (∀ i < s.pathCount,
        (Part000.openRun phase (Part000.stopIfActive s)).lastLocalP i
            = Part000.localProgressAt s true 0 i ∧
        (Part000.openRun phase (Part000.stopIfActive s)).yWork i
            = fun j => Part000.fillWaveYAtProgress s.amplitude
                (Part000.profileOf s.numberPoints phase)
                (Part000.localProgressAt s true 0 i) j)) := by
  have hstop : Part000.stopIfActive s = { s with tl := none } := by
    unfold Part000.stopIfActive Part000.killTimeline
    rw [if_pos ha]
    unfold Part000.isAnimating at ha
    cases htl : s.tl with
    | none => rw [htl] at ha; cases ha
    | some t => rfl
  rw [hstop]
  refine ⟨rfl, rfl, rfl, rfl, rfl, ?_⟩
  intro hsvg hn
  have hopen : Part000.openRun phase ({ s with tl := none } : Part000.WPState)
      = Part000.renderAll true 0 (Part000.runSetup phase
          ({ s with tl := none, opened := true } : Part000.WPState)) := by
    unfold Part000.openRun Part000.startRun
    rw [if_neg (by simp [Part000.isAnimating])]
    rw [if_neg ?hc]
    case hc =>
      simp only [not_or]
      refine ⟨by simpa using hsvg, by omega⟩
  rw [hopen]
  set s2 : Part000.WPState := { s with tl := none, opened := true } with hs2
  obtain ⟨g1, g2, g3, g4, g5, g6, g7, g8, g9, g10⟩ :=
    Part000.renderAll_config true 0 (Part000.runSetup phase s2)
  obtain ⟨h1, h2, h3, h4, h5, h6, h7, h8, h9, h10, h11, h12, h13, h14⟩ :=
    Part000.runSetup_fields phase s2
  refine ⟨?_, ?_, ?_, ?_, ?_⟩
  · rw [g7, h6]
  · unfold Part000.isAnimating
    rw [g8, h14]
  · rw [g9, h8]
  · rw [g10, h9]
  · intro i hi
    have hcore := Part000.runSetup_renderAll_at true phase 0 s2 i hi
    have hlp : Part000.localProgressAt s2 true 0 i
        = Part000.localProgressAt s true 0 i :=
      Part000.localProgressAt_congr _ _ true 0 i rfl rfl rfl
    constructor
    · rw [hcore.1, hlp]
    · rw [hcore.2, hlp]

/-- Witness for C8: a one-layer instance with an active timeline. -/
theorem claim8_cancel_preserves_witness :
    Part000.isAnimating ({ Part000.mkState 4 30 (1/4) 1 false (fun _ => "") with
        svg := true, pathCount := 1, tl := some (1, true) }) = true ∧
    ((Part000.stopIfActive ({ Part000.mkState 4 30 (1/4) 1 false (fun _ => "") with
        svg := true, pathCount := 1, tl := some (1, true) })).prevD
      = ({ Part000.mkState 4 30 (1/4) 1 false (fun _ => "") with
        svg := true, pathCount := 1,
        tl := some (1, true) } : Part000.WPState).prevD ∧
      Part000.isAnimating (Part000.stopIfActive
        ({ Part000.mkState 4 30 (1/4) 1 false (fun _ => "") with
          svg := true, pathCount := 1, tl := some (1, true) })) = false ∧
      (Part000.openRun 2 (Part000.stopIfActive
        ({ Part000.mkState 4 30 (1/4) 1 false (fun _ => "") with
          svg := true, pathCount := 1, tl := some (1, true) }))).opened = true ∧
      Part000.isAnimating (Part000.openRun 2 (Part000.stopIfActive
        ({ Part000.mkState 4 30 (1/4) 1 false (fun _ => "") with
          svg := true, pathCount := 1, tl := some (1, true) }))) = true ∧
      (Part000.openRun 2 (Part000.stopIfActive
        ({ Part000.mkState 4 30 (1/4) 1 false (fun _ => "") with
          svg := true, pathCount := 1, tl := some (1, true) }))).phase = 2) := by
  have h := claim8_cancel_preserves
    ({ Part000.mkState 4 30 (1/4) 1 false (fun _ => "") with
      svg := true, pathCount := 1, tl := some (1, true) }) 2 rfl
  obtain ⟨k1, k2, k3, k4, k5, k6⟩ := h
  obtain ⟨m1, m2, m3, m4, m5⟩ := k6 rfl (by norm_num)
  exact ⟨rfl, k1, k5, m1, m2, m3⟩

/-! ## C9 -/

lemma Part000.killTimeline_tl (s : Part000.WPState) :
    (Part000.killTimeline s).tl = none := by
  unfold Part000.killTimeline
  cases htl : s.tl
  · exact htl
  · rfl

lemma Part000.inert_no_op (t : Part000.WPState) (hsvg : t.svg = false)
    (htl : t.tl = none) : Part000.InertNoOp t := by
  intro phase
  have hanim : Part000.isAnimating t = false := by
    unfold Part000.isAnimating
    rw [htl]
  have hguard : ∀ u : Part000.WPState, u.svg = false →
      (¬u.svg ∨ u.pathCount = 0) := by
    intro u hu
    left
    simp [hu]
  have hopen : Part000.openRun phase t = { t with opened := true } := by
    unfold Part000.openRun Part000.startRun
    rw [if_neg (by rw [hanim]; exact Bool.false_ne_true)]
    rw [if_pos (hguard _ hsvg)]
  have hclose : Part000.closeRun phase t = { t with opened := false } := by
    unfold Part000.closeRun Part000.startRun
    rw [if_neg (by rw [hanim]; exact Bool.false_ne_true)]
    rw [if_pos (hguard _ hsvg)]
  have htoggle : Part000.toggleRun phase t = { t with opened := !t.opened } := by
    unfold Part000.toggleRun Part000.startRun
    rw [if_neg (by rw [hanim]; exact Bool.false_ne_true)]
    rw [if_pos (hguard _ hsvg)]
  have hstop : Part000.stopIfActive t = t := by
    unfold Part000.stopIfActive
    rw [if_neg (by rw [hanim]; exact Bool.false_ne_true)]
  have hms : Part000.totalDurationMs t = 0 := by
    unfold Part000.totalDurationMs
    rw [htl]
  have hdestroy : (Part000.destroy t).dom = t.dom := by
    unfold Part000.destroy Part000.resetCaches Part000.resetDomRefs
      Part000.killTimeline
    cases t.tl <;> rfl
  rw [hopen, hclose, htoggle]
  exact ⟨rfl, htl, rfl, rfl, rfl, rfl, rfl, hstop, hms, hdestroy⟩

/-- C9 counterexample: on an instance whose `init()` found no container, the
`open()` wrapper is not a complete no-op — it still flips the observable
`isOpened` flag from `false` to `true` before bailing out of the run. -/
theorem claim9_counterexample :
    (Part000.openRun 0 (Part000.initRun false 0
        (Part000.mkState 4 30 (1/4) 1 false (fun _ => "")))).opened = true ∧
    (Part000.initRun false 0
        (Part000.mkState 4 30 (1/4) 1 false (fun _ => ""))).opened = false := by
  constructor
  · rfl
  · rfl

/-- C9 amended: when initialization finds no container, or a container with
zero outline elements, the instance becomes inert (zero layers, no timeline):
no public operation ever writes a curve string, starts a timeline or touches
layer state, `stopIfActive` is the identity and `totalDurationMs` returns 0 —
but `open()`, `close()` and `toggle()` still record their target `isOpened`
flag (and resolve immediately). -/
theorem claim9_amended (s : Part000.WPState) :
    Part000.InertNoOp (Part000.initRun false 0 s) ∧
    Part000.InertNoOp (Part000.initRun true 0 s) := by
  constructor
  · apply Part000.inert_no_op
    · unfold Part000.initRun
      rw [if_pos (by simp)]
      unfold Part000.killTimeline Part000.resetDomRefs
      cases htl : ({ s with svg := false } : Part000.WPState).tl <;> rfl
    · unfold Part000.initRun
      rw [if_pos (by simp)]
      exact Part000.killTimeline_tl _
  · apply Part000.inert_no_op
    · unfold Part000.initRun
      rw [if_neg (by simp)]
      simp only [if_pos rfl]
      unfold Part000.resetDomRefs Part000.killTimeline
      cases htl : ({ s with svg := true, pathCount := 0 } : Part000.WPState).tl <;> rfl
    · unfold Part000.initRun
      rw [if_neg (by simp)]
      simp only [if_pos rfl]
      unfold Part000.resetDomRefs
      exact Part000.killTimeline_tl _
